import Mathlib

/-!
Shallow embedding of the Backeye frontend (React + Supabase): the table row
types declared in src/lib/supabase.ts, the query/update logic of
MapView, AlertsPanel, ClientDashboard, GeofenceManager and AuthProvider,
and — where the repository ships only the consuming UI — the engine
behaviour modelled from the specification (hysteresis containment, alert
cool-down, subscription fanout).
-/

namespace Backeye

/-- Role values of the users table as the components test them: the
Database type declares admin and client, the signIn fallback inserts the
default role viewer. -/
inductive Role where
  | admin
  | client
  | viewer
deriving DecidableEq, Repr

/-- A row of the devices table (Device interface in MapView / ClientDashboard /
DeviceManagement). -/
structure Device where
  id : String
  device_id : String
  phone_number : String
  device_type : String
  is_online : Bool
  battery_level : Int
  client_id : Option String
deriving DecidableEq, Repr

/-- A row of the location_data table (LocationData interface in MapView);
the ISO timestamp string is modelled as an integer epoch value. -/
structure LocationData where
  id : Int
  device_id : String
  latitude : Rat
  longitude : Rat
  accuracy : Rat
  timestamp : Int
  battery_level : Int
deriving DecidableEq, Repr

/-- A row of the geofences table (Geofence interface in MapView /
GeofenceManager); the original field named type is rendered gtype. -/
structure Geofence where
  id : String
  name : String
  gtype : String
  latitude : Rat
  longitude : Rat
  radius : Rat
  is_active : Bool
deriving DecidableEq, Repr

/-- A row of the alerts table (Alert interface in AlertsPanel); the original
field named type is rendered gtype. -/
structure Alert where
  id : String
  device_id : String
  geofence_id : String
  gtype : String
  message : String
  is_read : Bool
  created_at : Int
deriving DecidableEq, Repr

/-- A row of the users table as AuthProvider consumes it. -/
structure UserRow where
  id : String
  email : String
  role : Role
deriving DecidableEq, Repr

/-- The data a MapView marker and its info window carry for one device
(updateDeviceLocation: position from the location row, colour from
device.is_online, battery / timestamp / accuracy shown in the info
window). -/
structure Marker where
  deviceId : String
  lat : Rat
  lng : Rat
  online : Bool
  battery_level : Int
  timestamp : Int
  accuracy : Rat
deriving DecidableEq, Repr

/-- The marker updateDeviceLocation builds from the found device row and the
incoming location row. -/
def markerFor (device : Device) (locationData : LocationData) : Marker :=
  { deviceId := device.device_id
    lat := locationData.latitude
    lng := locationData.longitude
    online := device.is_online
    battery_level := locationData.battery_level
    timestamp := locationData.timestamp
    accuracy := locationData.accuracy }

/-- markersRef.current.set of the JS Map: replace the entry of an existing
key in place, otherwise append a new entry. -/
def mapSet (ms : List (String × Marker)) (k : String) (v : Marker) :
    List (String × Marker) :=
  if ms.any (fun p => p.1 == k) then
    ms.map (fun p => if p.1 == k then (k, v) else p)
  else ms ++ [(k, v)]

/-- MapView.updateDeviceLocation: find the ping's device among the loaded
devices (return unchanged when absent), drop the existing marker and set a
fresh one built from the location row. No field of the incoming row — in
particular not its timestamp, coordinates, accuracy or battery — is
compared against anything before the marker is replaced. -/
def updateDeviceLocation (devices : List Device)
    (markers : List (String × Marker)) (locationData : LocationData) :
    List (String × Marker) :=
  match devices.find? (fun d => d.device_id == locationData.device_id) with
  | none => markers
  | some device => mapSet markers device.device_id (markerFor device locationData)

/-- MapView.loadGeofences: the geofences query selects rows with
is_active = true. -/
def loadGeofences (geofences : List Geofence) : List Geofence :=
  geofences.filter (fun g => g.is_active)

/-- MapView.loadDevicesAndLocations, devices query: every row, narrowed to
client_id = user.id when the user has the client role. -/
def loadDevicesAndLocations (user : UserRow) (devices : List Device) :
    List Device :=
  if user.role = Role.client then
    devices.filter (fun d => d.client_id == some user.id)
  else devices

/-- ClientDashboard.loadDevices: rows with client_id = user.id. -/
def clientDashboardLoadDevices (user : UserRow) (devices : List Device) :
    List Device :=
  devices.filter (fun d => d.client_id == some user.id)

/-- AlertsPanel.loadAlerts: a client first loads their devices; with none the
panel is set to the empty list; otherwise the alerts query is narrowed to
those device ids. Other roles get every alert row. The created_at ordering
of the query only arranges rows and is not modelled. -/
def loadAlerts (user : UserRow) (devices : List Device) (alerts : List Alert) :
    List Alert :=
  if user.role = Role.client then
    let userDevices := devices.filter (fun d => d.client_id == some user.id)
    if userDevices.isEmpty then []
    else
      let deviceIds := userDevices.map (fun d => d.device_id)
      alerts.filter (fun a => deviceIds.contains a.device_id)
  else alerts

/-- AlertsPanel.markAsRead: update is_read = true on the row whose id equals
alertId (both the Supabase update and the local setAlerts map do this). -/
def markAsRead (alerts : List Alert) (alertId : String) : List Alert :=
  alerts.map (fun a => if a.id == alertId then { a with is_read := true } else a)

/-- AlertsPanel.markAllAsRead: update is_read = true on rows with
is_read = false; a client owning at least one device additionally narrows
the update to their device ids; a client owning none adds no device
filter. -/
def markAllAsRead (user : UserRow) (devices : List Device)
    (alerts : List Alert) : List Alert :=
  let pred : Alert → Bool :=
    if user.role = Role.client then
      let userDevices := devices.filter (fun d => d.client_id == some user.id)
      if userDevices.isEmpty then fun a => !a.is_read
      else
        let deviceIds := userDevices.map (fun d => d.device_id)
        fun a => !a.is_read && deviceIds.contains a.device_id
    else fun a => !a.is_read
  alerts.map (fun a => if pred a then { a with is_read := true } else a)

/-- The outcomes of the supabase calls AuthProvider.signIn makes, gathered
into one environment: whether any call throws (the outer try/catch), the
password sign-in (auth error flag and the auth user id it may return), the
users-table lookup for that id, and the result of inserting the fallback
row. -/
structure SignInEnv where
  throws : Bool
  authError : Bool
  authUser : Option String
  userData : Option UserRow
  insertedUser : Option UserRow
deriving DecidableEq, Repr

/-- What one call of signIn leaves behind: the returned object (an error
string or the empty object) and the setUser effect. -/
structure SignInOutcome where
  error : Option String
  storedUser : Option UserRow
deriving DecidableEq, Repr

/-- AuthProvider.signIn: every branch returns an object; setUser fires only
on the two branches that return the empty object. -/
def signIn (env : SignInEnv) : SignInOutcome :=
  if env.throws then
    { error := some "An error occurred during sign in", storedUser := none }
  else if env.authError then
    { error := some "Invalid credentials", storedUser := none }
  else
    match env.authUser with
    | none => { error := some "Authentication failed", storedUser := none }
    | some _ =>
        match env.userData with
        | some userData => { error := none, storedUser := some userData }
        | none =>
            match env.insertedUser with
            | some newUserData => { error := none, storedUser := some newUserData }
            | none =>
                { error := some "Failed to create user profile", storedUser := none }

/-- Modelled from the spec: the Containment Tracker of §4.4 is not among the
repository's files (the frontend only displays geofences). One hysteresis
comparison: transition to inside only when distance < radiusMeters − margin,
to outside only when distance > radiusMeters + margin, no change in the dead
band between. -/
def hysteresisStep (distance radiusMeters margin : Rat) (inside : Bool) :
    Bool :=
  if distance < radiusMeters - margin then true
  else if radiusMeters + margin < distance then false
  else inside

/-- Modelled from the spec: §4.4 emits exactly one alert request per true
transition; this counts the alert requests a sequence of evaluated distances
produces from a given prior containment state. -/
def transitionAlerts (radiusMeters margin : Rat) :
    Bool → List Rat → Nat
  | _, [] => 0
  | inside, d :: ds =>
      let next := hysteresisStep d radiusMeters margin inside
      (if next = inside then 0 else 1) + transitionAlerts radiusMeters margin next ds

/-- Modelled from the spec: the event stream of the Subscription Fanout Hub
(§4.6), a DeviceStateDelta or an Alert, each concerning one device. -/
inductive FanoutEvent where
  | deviceStateDelta (deviceId : String)
  | alertEvent (deviceId : String)
deriving DecidableEq, Repr

/-- The device a fanout event concerns. -/
def FanoutEvent.deviceId : FanoutEvent → String
  | .deviceStateDelta d => d
  | .alertEvent d => d

/-- Modelled from the spec: the Subscription Fanout Hub of §4.6 is not among
the repository's files; a subscriber registers with a filter and receives
the events matching that filter. -/
def fanoutDeliver (allowed : String → Bool) (events : List FanoutEvent) :
    List FanoutEvent :=
  events.filter (fun e => allowed e.deviceId)

/-- Modelled from the spec: an alert request as the Alert Dispatcher of §4.5
receives it — the dispatcher itself is not among the repository's files. The
request time is the dispatcher's clock when the request is handled. -/
structure AlertRequest where
  deviceId : String
  geofenceId : Option String
  kind : String
  message : String
  time : Int
deriving DecidableEq, Repr

/-- Modelled from the spec: an alert the dispatcher has persisted. -/
structure DispatchedAlert where
  deviceId : String
  geofenceId : Option String
  kind : String
  message : String
  createdAt : Int
  isRead : Bool
deriving DecidableEq, Repr

/-- Modelled from the spec: the cool-down test of §4.5 — some persisted alert
of the same (deviceId, geofenceId, kind) was created within the window
before the request. -/
def coolDownHit (window : Int) (store : List DispatchedAlert)
    (r : AlertRequest) : Bool :=
  store.any (fun a =>
    a.deviceId == r.deviceId && a.geofenceId == r.geofenceId &&
    a.kind == r.kind && decide (a.createdAt ≤ r.time) &&
    decide (r.time - a.createdAt < window))

/-- Modelled from the spec: the alert §4.5 constructs and persists, with
isRead = false and createdAt the handling time. -/
def mkDispatched (r : AlertRequest) : DispatchedAlert :=
  { deviceId := r.deviceId
    geofenceId := r.geofenceId
    kind := r.kind
    message := r.message
    createdAt := r.time
    isRead := false }

/-- Modelled from the spec: §4.5 — a request within the cool-down window of a
persisted alert of the same key is suppressed (store unchanged), any other
request is persisted. -/
def dispatch (window : Int) (store : List DispatchedAlert)
    (r : AlertRequest) : List DispatchedAlert :=
  if coolDownHit window store r then store else mkDispatched r :: store

/-- Modelled from the spec: the dispatcher handling a sequence of requests in
arrival order. -/
def dispatchAll (window : Int) (store : List DispatchedAlert)
    (reqs : List AlertRequest) : List DispatchedAlert :=
  reqs.foldl (dispatch window) store

/-- Two persisted alerts of the same (deviceId, geofenceId, kind) lie at
least a window apart. -/
def separated (window : Int) (store : List DispatchedAlert) : Prop :=
  store.Pairwise (fun a b =>
    a.deviceId = b.deviceId → a.geofenceId = b.geofenceId → a.kind = b.kind →
      window ≤ a.createdAt - b.createdAt ∨ window ≤ b.createdAt - a.createdAt)

/-- The validity conditions of spec §4.1, used to state the ingestion
claims: in-range latitude and longitude, positive accuracy, battery within
0..100. -/
def isInvalidPing (p : LocationData) : Bool :=
  decide (p.latitude < -90) || decide (90 < p.latitude) ||
  decide (p.longitude < -180) || decide (180 < p.longitude) ||
  decide (p.accuracy ≤ 0) ||
  decide (p.battery_level < 0) || decide (100 < p.battery_level)

/-- In the dead band the hysteresis state never changes, so a run of
evaluated distances staying inside it emits no alert request. -/
theorem transitionAlerts_eq_zero (R m : Rat) (inside : Bool) (ds : List Rat)
    (h : ∀ x ∈ ds, R - m ≤ x ∧ x ≤ R + m) :
    transitionAlerts R m inside ds = 0 := by
  induction ds generalizing inside with
  | nil => rfl
  | cons x xs ih =>
      have hx := h x (by simp)
      have hstep : hysteresisStep x R m inside = inside := by
        unfold hysteresisStep
        split_ifs with ha hb
        · linarith [hx.1]
        · linarith [hx.2]
        · rfl
      simp only [transitionAlerts, hstep, if_pos, Nat.zero_add]
      exact ih inside (fun y hy => h y (by simp [hy]))

/-- C1: a containment transition to inside happens only strictly below
radius − margin, a transition to outside only strictly above radius +
margin, the state is unchanged throughout the dead band, and a device whose
evaluated distances all stay within [radius − margin, radius + margin]
produces zero alert requests. -/
theorem hysteresis_dead_band (d R m : Rat) (inside : Bool) :
    (inside = false → hysteresisStep d R m inside = true → d < R - m) ∧
    (inside = true → hysteresisStep d R m inside = false → R + m < d) ∧
    (R - m ≤ d → d ≤ R + m → hysteresisStep d R m inside = inside) ∧
    (∀ ds : List Rat, (∀ x ∈ ds, R - m ≤ x ∧ x ≤ R + m) →
      transitionAlerts R m inside ds = 0) := by
  refine ⟨?_, ?_, ?_, fun ds h => transitionAlerts_eq_zero R m inside ds h⟩
  · intro hi hstep
    unfold hysteresisStep at hstep
    split_ifs at hstep with h1 h2
    · exact h1
    · rw [hi] at hstep; simp at hstep
  · intro hi hstep
    unfold hysteresisStep at hstep
    split_ifs at hstep with h1 h2
    · exact h2
    · rw [hi] at hstep; simp at hstep
  · intro h1 h2
    unfold hysteresisStep
    split_ifs with ha hb
    · linarith
    · linarith
    · rfl

/-- C6: the set of geofences the map's read path returns is exactly the set
of rows with active = true. -/
theorem load_geofences_active_iff (g : Geofence) (geofences : List Geofence) :
    g ∈ loadGeofences geofences ↔ g ∈ geofences ∧ g.is_active = true := by
  simp [loadGeofences, List.mem_filter]

/-- C10: signIn always returns an object; the error string is present on
exactly the failure branches (thrown call, auth error, missing auth user,
profile neither fetched nor created), no user is stored on those branches,
and the empty object is returned exactly when a fetched or freshly inserted
profile row was stored. -/
theorem sign_in_result_shape (env : SignInEnv) :
    ((signIn env).error = none ↔ (signIn env).storedUser ≠ none) ∧
    (∀ u, (signIn env).storedUser = some u →
      env.userData = some u ∨ (env.userData = none ∧ env.insertedUser = some u)) ∧
    (env.throws = true →
      signIn env = { error := some "An error occurred during sign in",
                     storedUser := none }) ∧
    (env.throws = false → env.authError = true →
      signIn env = { error := some "Invalid credentials", storedUser := none }) ∧
    (env.throws = false → env.authError = false → env.authUser = none →
      signIn env = { error := some "Authentication failed", storedUser := none }) ∧
    (env.throws = false → env.authError = false → env.authUser ≠ none →
      env.userData = none → env.insertedUser = none →
      signIn env = { error := some "Failed to create user profile",
                     storedUser := none }) := by
  obtain ⟨t, ae, au, ud, iu⟩ := env
  cases t <;> cases ae <;> cases au <;> cases ud <;> cases iu <;>
    simp [signIn]

/-- C2: fanout delivery through a filter yields only events that filter
allows, and in the code a client-role user's alert view and the two device
list paths contain only rows whose device is assigned to that client. -/
theorem client_filter_sound (user : UserRow) (devices : List Device)
    (alerts : List Alert) (allowed : String → Bool)
    (events : List FanoutEvent) :
    (∀ e ∈ fanoutDeliver allowed events, allowed e.deviceId = true) ∧
    (user.role = Role.client →
      ∀ a ∈ loadAlerts user devices alerts,
        ∃ dv ∈ devices, dv.client_id = some user.id ∧
          dv.device_id = a.device_id) ∧
    (user.role = Role.client →
      ∀ dv ∈ loadDevicesAndLocations user devices,
        dv.client_id = some user.id) ∧
    (∀ dv ∈ clientDashboardLoadDevices user devices,
      dv.client_id = some user.id) := by
  refine ⟨?_, ?_, ?_, ?_⟩
  · intro e he
    exact (List.mem_filter.mp he).2
  · intro hrole a ha
    unfold loadAlerts at ha
    rw [if_pos hrole] at ha
    by_cases hempty :
        (devices.filter (fun d => d.client_id == some user.id)).isEmpty
    · simp [hempty] at ha
    · rw [if_neg hempty] at ha
      have hmem := (List.mem_filter.mp ha).2
      rw [List.contains_eq_any_beq] at hmem
      simp only [List.any_eq_true, beq_iff_eq] at hmem
      obtain ⟨i, hi, hieq⟩ := hmem
      obtain ⟨dv, hdv, hdvid⟩ := List.mem_map.mp hi
      have hdv2 := List.mem_filter.mp hdv
      exact ⟨dv, hdv2.1, by simpa using hdv2.2, by rw [hdvid, hieq]⟩
  · intro hrole dv hdv
    unfold loadDevicesAndLocations at hdv
    rw [if_pos hrole] at hdv
    have := (List.mem_filter.mp hdv).2
    simpa using this
  · intro dv hdv
    have := (List.mem_filter.mp hdv).2
    simpa using this

/-- C8: the two alert mutations of AlertsPanel touch only the is_read flag —
markAsRead sets it on the row with the given id and leaves every other field
of that row, and every other row, unchanged; markAllAsRead likewise changes
no field other than is_read of any row. -/
theorem alert_read_flag_frame (alerts : List Alert) (alertId : String)
    (user : UserRow) (devices : List Device) :
    (∀ (n : Nat) (a : Alert), alerts[n]? = some a →
      ∃ b, (markAsRead alerts alertId)[n]? = some b ∧
        b.id = a.id ∧ b.device_id = a.device_id ∧
        b.geofence_id = a.geofence_id ∧ b.gtype = a.gtype ∧
        b.message = a.message ∧ b.created_at = a.created_at ∧
        (a.id = alertId → b.is_read = true) ∧ (a.id ≠ alertId → b = a)) ∧
    (∀ (n : Nat) (a : Alert), alerts[n]? = some a →
      ∃ b, (markAllAsRead user devices alerts)[n]? = some b ∧
        b.id = a.id ∧ b.device_id = a.device_id ∧
        b.geofence_id = a.geofence_id ∧ b.gtype = a.gtype ∧
        b.message = a.message ∧ b.created_at = a.created_at) := by
  constructor
  · intro n a ha
    refine ⟨if a.id == alertId then { a with is_read := true } else a, ?_, ?_⟩
    · simp [markAsRead, List.getElem?_map, ha]
    · by_cases h : a.id = alertId <;> simp [h]
  · intro n a ha
    unfold markAllAsRead
    simp only [List.getElem?_map, ha, Option.map_some']
    refine ⟨_, rfl, ?_⟩
    split_ifs <;> simp

/-- C9: with the client role and zero assigned devices markAllAsRead adds no
device filter — every unread alert row, whoever owns its device, is set to
is_read = true — while with at least one assigned device rows whose device
is not among the client's are left untouched. -/
theorem mark_all_read_unfiltered_when_no_devices (user : UserRow)
    (devices : List Device) (alerts : List Alert) :
    (user.role = Role.client →
      devices.filter (fun d => d.client_id == some user.id) = [] →
      markAllAsRead user devices alerts =
        alerts.map (fun a =>
          if !a.is_read then { a with is_read := true } else a)) ∧
    (user.role = Role.client →
      devices.filter (fun d => d.client_id == some user.id) = [] →
      ∀ a ∈ alerts, a.is_read = false →
        { a with is_read := true } ∈ markAllAsRead user devices alerts) ∧
    (user.role = Role.client →
      ∀ d0, d0 ∈ devices.filter (fun d => d.client_id == some user.id) →
      ∀ (n : Nat) (a : Alert), alerts[n]? = some a →
        a.device_id ∉ (devices.filter
            (fun d => d.client_id == some user.id)).map
            (fun d => d.device_id) →
        (markAllAsRead user devices alerts)[n]? = some a) := by
  refine ⟨?_, ?_, ?_⟩
  · intro hrole hnone
    unfold markAllAsRead
    rw [if_pos hrole, hnone]
    simp
  · intro hrole hnone a ha hunread
    unfold markAllAsRead
    rw [if_pos hrole, hnone]
    simp only [List.isEmpty_nil, if_pos]
    refine List.mem_map.mpr ⟨a, ha, ?_⟩
    simp [hunread]
  · intro hrole d0 hd0 n a ha hnotin
    unfold markAllAsRead
    rw [if_pos hrole]
    have hne : ¬ (devices.filter
        (fun d => d.client_id == some user.id)).isEmpty := by
      intro hemp
      rw [List.isEmpty_iff] at hemp
      rw [hemp] at hd0
      simp at hd0
    rw [if_neg hne]
    simp [List.getElem?_map, ha, hnotin]

/-- List.lookup finds the head pair when the keys match. -/
theorem lookup_cons_self (k : String) (v : Marker)
    (ms : List (String × Marker)) : ((k, v) :: ms).lookup k = some v := by
  simp [List.lookup]

/-- List.lookup skips a head pair whose key differs. -/
theorem lookup_cons_ne (k pk : String) (pv : Marker)
    (ms : List (String × Marker)) (h : (k == pk) = false) :
    ((pk, pv) :: ms).lookup k = ms.lookup k := by
  simp [List.lookup, h]

/-- Replacing the entry of a key that some pair of the map carries leaves the
replacement visible to lookup. -/
theorem lookup_map_replace (ms : List (String × Marker)) (k : String)
    (v : Marker) (h : ms.any (fun p => p.1 == k) = true) :
    (ms.map (fun p => if p.1 == k then (k, v) else p)).lookup k = some v := by
  induction ms with
  | nil => simp at h
  | cons p ps ih =>
      obtain ⟨pk, pv⟩ := p
      rw [List.map_cons]
      by_cases hp : (pk == k) = true
      · rw [if_pos (by simpa using hp)]
        exact lookup_cons_self k v _
      · rw [Bool.not_eq_true] at hp
        have hps : ps.any (fun q => q.1 == k) = true := by
          simpa [List.any_cons, hp] using h
        have hk : (k == pk) = false := by
          rw [beq_eq_false_iff_ne] at hp ⊢
          exact fun hkp => hp hkp.symm
        rw [if_neg (by simp [hp]), lookup_cons_ne k pk pv _ hk]
        exact ih hps

/-- Appending a pair under a key no pair of the map carries leaves the new
value visible to lookup. -/
theorem lookup_append_new (ms : List (String × Marker)) (k : String)
    (v : Marker) (h : ms.any (fun p => p.1 == k) = false) :
    (ms ++ [(k, v)]).lookup k = some v := by
  induction ms with
  | nil => simp [List.lookup]
  | cons p ps ih =>
      obtain ⟨pk, pv⟩ := p
      rw [List.any_cons, Bool.or_eq_false_iff] at h
      have hk : (k == pk) = false := by
        rw [beq_eq_false_iff_ne]
        intro hkp
        rw [beq_eq_false_iff_ne] at h
        exact h.1 hkp.symm
      rw [List.cons_append, lookup_cons_ne k pk pv _ hk]
      exact ih h.2

/-- Whatever the map held before, a set stores the value under its key. -/
theorem lookup_mapSet (ms : List (String × Marker)) (k : String)
    (v : Marker) : (mapSet ms k v).lookup k = some v := by
  unfold mapSet
  by_cases h : ms.any (fun p => p.1 == k) = true
  · rw [if_pos h]
    exact lookup_map_replace ms k v h
  · rw [if_neg h]
    rw [Bool.not_eq_true] at h
    exact lookup_append_new ms k v h

/-- Concrete rows for the closed counterexample and witness theorems. -/
def c3Device : Device :=
  { id := "u3", device_id := "dev-3", phone_number := "555-0103",
    device_type := "car", is_online := true, battery_level := 80,
    client_id := none }

/-- The marker recorded for dev-3 before the stale ping, built from a ping
with timestamp 2. -/
def c3Marker : Marker :=
  { deviceId := "dev-3", lat := 40, lng := -74, online := true,
    battery_level := 80, timestamp := 2, accuracy := 5 }

/-- A ping for dev-3 whose timestamp 1 is not strictly greater than the
recorded timestamp 2. -/
def c3Ping : LocationData :=
  { id := 7, device_id := "dev-3", latitude := 41, longitude := -73,
    accuracy := 5, timestamp := 1, battery_level := 70 }

def c4Device : Device :=
  { id := "u4", device_id := "dev-4", phone_number := "555-0104",
    device_type := "truck", is_online := true, battery_level := 60,
    client_id := none }

/-- The earlier ping of the C4 pair. -/
def c4p1 : LocationData :=
  { id := 1, device_id := "dev-4", latitude := 10, longitude := 20,
    accuracy := 5, timestamp := 1, battery_level := 90 }

/-- The later ping of the C4 pair, at a different position. -/
def c4p2 : LocationData :=
  { id := 2, device_id := "dev-4", latitude := 11, longitude := 21,
    accuracy := 5, timestamp := 2, battery_level := 89 }

def c7Device : Device :=
  { id := "u7", device_id := "dev-7", phone_number := "555-0107",
    device_type := "bike", is_online := false, battery_level := 50,
    client_id := none }

/-- A ping that is invalid on every count of spec §4.1: latitude and
longitude out of range, non-positive accuracy, battery above 100. -/
def c7Ping : LocationData :=
  { id := 9, device_id := "dev-7", latitude := 999, longitude := 999,
    accuracy := -1, timestamp := 5, battery_level := 150 }

/-- C3 counterexample: a ping whose timestamp is not strictly greater than
the recorded marker's changes the stored map state — updateDeviceLocation
applies it instead of rejecting it. -/
theorem stale_ping_changes_marker :
    c3Ping.timestamp ≤ c3Marker.timestamp ∧
    updateDeviceLocation [c3Device] [(c3Device.device_id, c3Marker)] c3Ping ≠
      [(c3Device.device_id, c3Marker)] := by
  constructor
  · decide
  · decide

/-- C3 amended: updateDeviceLocation makes no timestamp comparison — when
the ping's device is among the loaded devices, the marker is rebuilt from
the ping even when its timestamp is not strictly greater than the recorded
marker's (and the view performs no containment evaluation and raises no
alert, so those parts hold trivially). -/
theorem stale_ping_applied_unconditionally (devices : List Device)
    (markers : List (String × Marker)) (loc : LocationData) (d : Device)
    (m : Marker)
    (hfind : devices.find? (fun x => x.device_id == loc.device_id) = some d)
    (hm : markers.lookup d.device_id = some m)
    (hstale : loc.timestamp ≤ m.timestamp) :
    (updateDeviceLocation devices markers loc).lookup d.device_id =
      some (markerFor d loc) := by
  unfold updateDeviceLocation
  rw [hfind]
  exact lookup_mapSet markers d.device_id (markerFor d loc)

/-- Witness for the amended C3 at the concrete stale ping. -/
theorem stale_ping_applied_witness :
    (updateDeviceLocation [c3Device] [(c3Device.device_id, c3Marker)]
        c3Ping).lookup c3Device.device_id = some (markerFor c3Device c3Ping) :=
  stale_ping_applied_unconditionally [c3Device]
    [(c3Device.device_id, c3Marker)] c3Ping c3Device c3Marker
    (by decide) (by decide) (by decide)

/-- C4 counterexample: for the concrete pings p1, p2 with
p1.timestamp < p2.timestamp, processing p2 then p1 leaves a final recorded
position different from p2's. -/
theorem arrival_order_counterexample :
    c4p1.timestamp < c4p2.timestamp ∧
    (updateDeviceLocation [c4Device]
        (updateDeviceLocation [c4Device] [] c4p2) c4p1).lookup
        c4Device.device_id ≠ some (markerFor c4Device c4p2) := by
  constructor
  · decide
  · decide

/-- C4 amended: updateDeviceLocation is last-writer-wins — after processing
two pings for the same device the recorded marker is the one built from the
last-processed ping, so the final position equals p2's exactly when p2 is
processed second, not in either arrival order. -/
theorem final_marker_is_last_processed (devices : List Device)
    (markers : List (String × Marker)) (p q : LocationData) (d : Device)
    (hfind : devices.find? (fun x => x.device_id == q.device_id) = some d) :
    (updateDeviceLocation devices
        (updateDeviceLocation devices markers p) q).lookup d.device_id =
      some (markerFor d q) := by
  unfold updateDeviceLocation
  rw [hfind]
  exact lookup_mapSet _ d.device_id (markerFor d q)

/-- Witness for the amended C4 at the concrete pings, in timestamp order. -/
theorem final_marker_is_last_processed_witness :
    (updateDeviceLocation [c4Device]
        (updateDeviceLocation [c4Device] [] c4p1) c4p2).lookup
        c4Device.device_id = some (markerFor c4Device c4p2) :=
  final_marker_is_last_processed [c4Device] [] c4p1 c4p2 c4Device (by decide)

/-- C7 counterexample: a ping with out-of-range coordinates, non-positive
accuracy and battery above 100 is not discarded — it changes the stored map
state. -/
theorem invalid_ping_counterexample :
    isInvalidPing c7Ping = true ∧
    updateDeviceLocation [c7Device] [] c7Ping ≠ [] := by
  constructor
  · decide
  · decide

/-- C7 amended: updateDeviceLocation validates nothing — a ping that is
invalid by every criterion of spec §4.1 is applied to the marker map exactly
as a valid ping would be; no InvalidPing rejection path exists in the
repository's files. -/
theorem invalid_ping_applied (devices : List Device)
    (markers : List (String × Marker)) (loc : LocationData) (d : Device)
    (hinv : isInvalidPing loc = true)
    (hfind : devices.find? (fun x => x.device_id == loc.device_id) = some d) :
    updateDeviceLocation devices markers loc =
      mapSet markers d.device_id (markerFor d loc) := by
  unfold updateDeviceLocation
  rw [hfind]

/-- Witness for the amended C7 at the concrete invalid ping. -/
theorem invalid_ping_applied_witness :
    updateDeviceLocation [c7Device] [] c7Ping =
      mapSet [] c7Device.device_id (markerFor c7Device c7Ping) :=
  invalid_ping_applied [c7Device] [] c7Ping c7Device (by decide) (by decide)

/-- Every element the dispatcher's store gains comes from the old store or is
the freshly persisted alert. -/
theorem mem_dispatch (window : Int) (store : List DispatchedAlert)
    (r : AlertRequest) (a : DispatchedAlert) (ha : a ∈ dispatch window store r) :
    a ∈ store ∨ a = mkDispatched r := by
  unfold dispatch at ha
  split_ifs at ha
  · exact Or.inl ha
  · rcases List.mem_cons.mp ha with h | h
    · exact Or.inr h
    · exact Or.inl h

/-- When every stored alert was created no later than the request, one
dispatch step keeps same-key alerts a window apart. -/
theorem dispatch_separated (window : Int) (store : List DispatchedAlert)
    (r : AlertRequest) (hsep : separated window store)
    (hle : ∀ a ∈ store, a.createdAt ≤ r.time) :
    separated window (dispatch window store r) := by
  unfold dispatch
  by_cases h : coolDownHit window store r = true
  · rw [if_pos h]
    exact hsep
  · rw [if_neg (by simp [h])]
    rw [Bool.not_eq_true] at h
    unfold coolDownHit at h
    rw [List.any_eq_false] at h
    refine List.Pairwise.cons ?_ hsep
    intro a ha hdev hgeo hkind
    have hfail := h a ha
    simp only [Bool.and_eq_true, beq_iff_eq, decide_eq_true_eq, not_and,
      Bool.not_eq_true] at hfail
    have hwindow : window ≤ r.time - a.createdAt := by
      by_contra hlt
      push_neg at hlt
      exact hfail ⟨⟨⟨hdev.symm, hgeo.symm⟩, hkind.symm⟩, hle a ha⟩ hlt
    exact Or.inl hwindow

/-- Folding chronologically ordered requests through the dispatcher keeps
same-key alerts a window apart. -/
theorem dispatchAll_separated (window : Int) (reqs : List AlertRequest)
    (store : List DispatchedAlert)
    (hchron : reqs.Pairwise (fun p q => p.time ≤ q.time))
    (hsep : separated window store)
    (hle : ∀ a ∈ store, ∀ r ∈ reqs, a.createdAt ≤ r.time) :
    separated window (dispatchAll window store reqs) := by
  induction reqs generalizing store with
  | nil => exact hsep
  | cons r rest ih =>
      rw [List.pairwise_cons] at hchron
      obtain ⟨hr, hrest⟩ := hchron
      show separated window (dispatchAll window (dispatch window store r) rest)
      apply ih (dispatch window store r) hrest
      · exact dispatch_separated window store r hsep
          (fun a ha => hle a ha r (by simp))
      · intro a ha q hq
        rcases mem_dispatch window store r a ha with hmem | heq
        · exact hle a hmem q (by simp [hq])
        · rw [heq]
          exact hr q hq

/-- C5: a request whose (deviceId, geofenceId, kind) matches an alert
persisted within the cool-down window before it is suppressed — the store is
unchanged, so nothing is persisted or fanned out — and consequently the
store built from chronologically arriving requests never holds two same-key
alerts less than a window apart. -/
theorem alert_cool_down_dedup (window : Int) (reqs : List AlertRequest)
    (hchron : reqs.Pairwise (fun p q => p.time ≤ q.time)) :
    (∀ (store : List DispatchedAlert) (r : AlertRequest)
        (a : DispatchedAlert), a ∈ store →
      a.deviceId = r.deviceId → a.geofenceId = r.geofenceId →
      a.kind = r.kind → a.createdAt ≤ r.time →
      r.time - a.createdAt < window →
      dispatch window store r = store) ∧
    separated window (dispatchAll window [] reqs) := by
  constructor
  · intro store r a ha h1 h2 h3 h4 h5
    unfold dispatch
    rw [if_pos]
    unfold coolDownHit
    rw [List.any_eq_true]
    exact ⟨a, ha, by simp [h1, h2, h3, h4, h5]⟩
  · exact dispatchAll_separated window reqs [] hchron
      List.Pairwise.nil (by simp)

/-- The first concrete alert request for the C5 witness. -/
def c5req1 : AlertRequest :=
  { deviceId := "d1", geofenceId := some "g1", kind := "geofence_exit",
    message := "m1", time := 0 }

/-- The second concrete alert request for the C5 witness, 30 seconds after
the first. -/
def c5req2 : AlertRequest :=
  { deviceId := "d1", geofenceId := some "g1", kind := "geofence_exit",
    message := "m2", time := 30 }

/-- Witness for C5: two geofence_exit requests for the same device and
geofence 30 seconds apart: the second is suppressed and the store built from
the pair keeps same-key alerts a window apart. -/
theorem alert_cool_down_dedup_witness :
    dispatch 60 [mkDispatched c5req1] c5req2 = [mkDispatched c5req1] ∧
    separated 60 (dispatchAll 60 [] [c5req1, c5req2]) := by
  have h := alert_cool_down_dedup 60 [c5req1, c5req2]
    (by simp [c5req1, c5req2])
  refine ⟨?_, h.2⟩
  exact h.1 [mkDispatched c5req1] c5req2 (mkDispatched c5req1) (by simp)
    rfl rfl rfl (by norm_num [mkDispatched, c5req1, c5req2])
    (by norm_num [mkDispatched, c5req1, c5req2])

end Backeye
